import Mathlib

/-!
# Verification of the bosh-utils command-execution engine and SOCKS5 helper

Shallow embedding of the repository's command execution engine
(environment merging, stream binding, result reporting, the CmdRunner
façade, and the async completion handle) and of
`httpclient/socksify.go`'s `SOCKS5DialFuncFromEnvironment`.

The command-runner implementation itself is not among the provided
source files (only its test suite is), so those components are modelled
from the specification; the SOCKS5 helper is translated directly from
`src/httpclient/socksify.go`.
-/

set_option autoImplicit false

/-- ASCII-uppercases one character (the case folding Go's
`strings.ToUpper` applies to the ASCII environment keys the engine
handles). -/
def upChar (c : Char) : Char :=
  if 'a' ≤ c ∧ c ≤ 'z' then Char.ofNat (c.toNat - 32) else c

/-- Uppercases every character of a string. -/
def upKey (s : String) : String := ⟨s.data.map upChar⟩

/-- Byte-wise (code-point-wise) `≤` on character lists, the order Go's
`sort.Strings` uses on the ASCII keys involved. -/
def charListLe : List Char → List Char → Bool
  | [], _ => true
  | _ :: _, [] => false
  | a :: as, b :: bs =>
    if a.toNat < b.toNat then true
    else if b.toNat < a.toNat then false
    else charListLe as bs

/-- Lexicographic `≤` on strings. -/
def strLe (a b : String) : Bool := charListLe a.data b.data

/-- Does the first character list start with the second?  (Go's
`strings.HasPrefix` on the underlying characters.) -/
def charsStartWith : List Char → List Char → Bool
  | _, [] => true
  | [], _ :: _ => false
  | a :: as, b :: bs => a == b && charsStartWith as bs

/-- Go's `strings.HasPrefix`. -/
def strStartsWith (s p : String) : Bool := charsStartWith s.data p.data

/-- Splitting worker for `strSplitOn`; the fuel bounds the number of
scanning steps and is set to the string length, which always
suffices. -/
def splitOnAux (sep : List Char) : Nat → List Char → List Char → List (List Char)
  | _, [], acc => [acc.reverse]
  | 0, s, acc => [acc.reverse ++ s]
  | fuel + 1, c :: rest, acc =>
    if sep ≠ [] ∧ charsStartWith (c :: rest) sep then
      acc.reverse :: splitOnAux sep fuel ((c :: rest).drop sep.length) []
    else
      splitOnAux sep fuel rest (c :: acc)

/-- Go's `strings.Split` for a non-empty separator. -/
def strSplitOn (s sep : String) : List String :=
  (splitOnAux sep.data s.data.length s.data []).map fun cs => ⟨cs⟩

/-- Go's `strings.Contains` (for the non-empty separators the source
uses): the separator occurs iff splitting on it yields more than one
part. -/
def strContains (s sub : String) : Bool := (strSplitOn s sub).length > 1

/-- Go's `strings.TrimPrefix`: drops the prefix when present, otherwise
returns the string unchanged. -/
def dropPre (s p : String) : String :=
  if strStartsWith s p then ⟨s.data.drop p.data.length⟩ else s

/-- Modelled from the spec: a platform discriminator.  The spec
distinguishes case-sensitive platforms (*nix) from case-insensitive ones
(Windows), and platforms whose launch primitive can express an isolated
environment from those that cannot (Windows cannot). -/
structure Platform where
  caseSensitiveEnv : Bool
  supportsIsolatedEnv : Bool
deriving DecidableEq, Repr

def unixPlatform : Platform := ⟨true, true⟩

def windowsPlatform : Platform := ⟨false, false⟩

/-- Modelled from the spec: outcome of resolving the environment —
either a resolved list of key/value pairs, or an unrecoverable
programmer-error abort (Go `panic`), which never yields a normal
result. -/
inductive MergeResult where
  | ok (env : List (String × String))
  | panicked
deriving DecidableEq, Repr

/-- Insert a string into an already-sorted list, keeping it sorted. -/
def insertSorted (x : String) : List String → List String
  | [] => [x]
  | y :: ys => if strLe x y then x :: y :: ys else y :: insertSorted x ys

/-- Lexicographic (ascending) insertion sort on strings, used to make the
case-insensitive de-duplication of `Command.Env` deterministic. -/
def sortStrings : List String → List String
  | [] => []
  | x :: xs => insertSorted x (sortStrings xs)

/-- Modelled from the spec: de-duplication of the spec's `Env` on a
case-insensitive platform.  The keys are sorted lexicographically and
walked in order; the first key of each case-insensitive equivalence
class wins (this is what the repository's own concrete example and the
Windows test demand: `_BAR` beats `_bar`). -/
def dedupeEnvCI (env : List (String × String)) : List (String × String) :=
  (sortStrings (env.map Prod.fst)).foldl
    (fun acc k =>
      match env.lookup k with
      | some v =>
        if acc.any (fun p => upKey p.1 == upKey k) then acc else acc ++ [(k, v)]
      | none => acc)
    []

/-- Follows the claim's literal words: identical to `dedupeEnvCI` except
that the LAST key of each case-insensitive equivalence class (after the
lexicographic ascending sort) wins. -/
def dedupeEnvCILast (env : List (String × String)) : List (String × String) :=
  (sortStrings (env.map Prod.fst)).foldl
    (fun acc k =>
      match env.lookup k with
      | some v => (acc.filter (fun p => upKey p.1 != upKey k)) ++ [(k, v)]
      | none => acc)
    []

/-- Modelled from the spec: case-insensitive merge — the de-duplicated
`Env` entries win over ambient entries whose keys compare equal
case-insensitively; the winning key keeps the casing `Env` gave it. -/
def mergeCaseInsensitive (ambient env : List (String × String)) :
    List (String × String) :=
  let de := dedupeEnvCI env
  de ++ ambient.filter (fun p => !(de.any (fun q => upKey q.1 == upKey p.1)))

/-- The same merge but built on the claim's literal last-after-sorting
de-duplication, used only to exhibit that reading of the tie-break. -/
def mergeCaseInsensitiveLast (ambient env : List (String × String)) :
    List (String × String) :=
  let de := dedupeEnvCILast env
  de ++ ambient.filter (fun p => !(de.any (fun q => upKey q.1 == upKey p.1)))

/-- Modelled from the spec: case-sensitive merge — ambient entries whose
exact-case key also appears in `Env` take the `Env` value; `Env` keys not
present in the ambient environment are appended.  Keys that differ only
by case coexist. -/
def mergeCaseSensitive (ambient env : List (String × String)) :
    List (String × String) :=
  ambient.map (fun p =>
    match env.lookup p.1 with
    | some v => (p.1, v)
    | none => p)
  ++ env.filter (fun q => (ambient.lookup q.1).isNone)

/-- Modelled from the spec: the EnvironmentMerger contract (§4.1).
`UseIsolatedEnv` on a supporting platform yields exactly `Env`; on a
platform that cannot express isolation it is an unrecoverable
programmer error (panic), never a silent fallback.  Otherwise the
ambient environment is merged with `Env` under the platform's key
comparison rule. -/
def mergeEnv (plat : Platform) (ambient env : List (String × String))
    (isolated : Bool) : MergeResult :=
  if isolated then
    if plat.supportsIsolatedEnv then .ok env else .panicked
  else if plat.caseSensitiveEnv then .ok (mergeCaseSensitive ambient env)
  else .ok (mergeCaseInsensitive ambient env)

example :
    mergeEnv windowsPlatform [("_FOO", "BAR"), ("PATH", "C:")]
      [("_foo", "BAZZZ"), ("_bar", "alpha=second"), ("_BAR", "alpha=first")]
      false =
    MergeResult.ok
      [("_BAR", "alpha=first"), ("_foo", "BAZZZ"), ("PATH", "C:")] := by
  decide

/-! ## Command specification, streams, results -/

/-- Modelled from the spec: the caller-built command specification
(§3 `CommandSpec`).  Byte sources/sinks are modelled by whether a
caller-supplied sink is present and, for stdin, by its contents. -/
structure Command where
  name : String
  args : List String
  workingDir : Option String
  env : List (String × String)
  useIsolatedEnv : Bool
  stdin : Option String
  hasStdoutSink : Bool
  hasStderrSink : Bool
deriving DecidableEq, Repr

/-- Modelled from the spec: the observable behaviour of a process that
ran to completion — everything it wrote on each stream and its native
exit code. -/
structure ProcOutput where
  stdout : String
  stderr : String
  exitCode : Nat
deriving DecidableEq, Repr

/-- Modelled from the spec: the engine's uniform result shape
(§3 `Result`). `err = none` means a nil error. -/
structure RunResult where
  stdout : String
  stderr : String
  exitStatus : Nat
  err : Option String
deriving DecidableEq, Repr

/-- Joins strings with single spaces, as Go renders `name` followed by
`args` in the error message. -/
def joinSpace : List String → String
  | [] => ""
  | [x] => x
  | x :: xs => x ++ " " ++ joinSpace xs

/-- The full command line as it appears in error messages. -/
def commandLine (name : String) (args : List String) : String :=
  joinSpace (name :: args)

/-- The native description of a non-zero exit, as Go's
`exec.ExitError.Error()` renders it. -/
def exitDescription (code : Nat) : String :=
  "exit status " ++ toString code

/-- Modelled from the spec: the ResultReporter contract (§4.4) for a
process that ran to completion.  Exit 0 yields a nil error; a non-zero
exit yields the native code and a `NonZeroExit` message embedding the
command line and the captured streams. -/
def reportResult (name : String) (args : List String)
    (outCaptured errCaptured : String) (code : Nat) : RunResult :=
  if code = 0 then ⟨outCaptured, errCaptured, 0, none⟩
  else
    ⟨outCaptured, errCaptured, code,
      some ("Running command: '" ++ commandLine name args ++ "', stdout: '"
        ++ outCaptured ++ "', stderr: '" ++ errCaptured ++ "': "
        ++ exitDescription code)⟩

/-- One bound output stream: what reached the caller-supplied sink and
what was captured for the synchronous result. -/
structure BoundStream where
  sinkBytes : String
  captured : String
deriving DecidableEq, Repr

/-- Modelled from the spec: the StreamBinder contract (§4.2) for one
output stream.  With a caller-supplied sink all drained bytes stream to
it and the result field stays empty; without one, an internal buffer
captures the full stream for the result. -/
def bindOutput (hasSink : Bool) (written : String) : BoundStream :=
  if hasSink then ⟨written, ""⟩ else ⟨"", written⟩

/-- The full observable outcome of one synchronous invocation: the
result delivered to the caller, the bytes each caller-supplied sink
received, and the environment the launched process observed. -/
structure RunOutcome where
  result : RunResult
  stdoutSinkBytes : String
  stderrSinkBytes : String
  mergedEnv : List (String × String)
deriving DecidableEq, Repr

/-- Modelled from the spec: the synchronous execution pipeline (§2
control flow): resolve the environment, bind the streams, run, report.
`proc` abstracts the launched process's behaviour.  A `none` outcome is
the unrecoverable panic of an impossible isolation request — no normal
result is produced then. -/
def runComplexCommand (plat : Platform) (ambient : List (String × String))
    (cmd : Command) (proc : ProcOutput) : Option RunOutcome :=
  match mergeEnv plat ambient cmd.env cmd.useIsolatedEnv with
  | .panicked => none
  | .ok resolved =>
    let so := bindOutput cmd.hasStdoutSink proc.stdout
    let se := bindOutput cmd.hasStderrSink proc.stderr
    some
      ⟨reportResult cmd.name cmd.args so.captured se.captured proc.exitCode,
        so.sinkBytes, se.sinkBytes, resolved⟩

/-- A plain `RunCommand`-style specification: name and arguments only,
ambient environment inherited, internal buffering for both streams. -/
def simpleCommand (name : String) (args : List String) : Command :=
  ⟨name, args, none, [], false, none, false, false⟩

/-- Modelled from the spec: `RunCommand` (§6).  The second component is
the number of `Debug` calls the invocation makes on the injected
logger. -/
def runCommand (plat : Platform) (ambient : List (String × String))
    (name : String) (args : List String) (proc : ProcOutput) :
    Option RunOutcome × Nat :=
  (runComplexCommand plat ambient (simpleCommand name args) proc, 0)

/-- Modelled from the spec: `RunCommandWithInput` (§6); no `Debug`
calls. -/
def runCommandWithInput (plat : Platform) (ambient : List (String × String))
    (input : String) (name : String) (args : List String)
    (proc : ProcOutput) : Option RunOutcome × Nat :=
  (runComplexCommand plat ambient
    ⟨name, args, none, [], false, some input, false, false⟩ proc, 0)

/-- Modelled from the spec: `RunCommandQuietly` (§4.4, §6) — execution
identical to `RunCommand`, plus exactly two `Debug` calls on the
injected logger (one for the command, one for the result). -/
def runCommandQuietly (plat : Platform) (ambient : List (String × String))
    (name : String) (args : List String) (proc : ProcOutput) :
    Option RunOutcome × Nat :=
  (runComplexCommand plat ambient (simpleCommand name args) proc, 2)

/-- Modelled from the spec: the synchronous full-spec façade operation
`RunComplexCommand` (§6); no `Debug` calls. -/
def runComplexCommandOp (plat : Platform) (ambient : List (String × String))
    (cmd : Command) (proc : ProcOutput) : Option RunOutcome × Nat :=
  (runComplexCommand plat ambient cmd proc, 0)

/-- Modelled from the spec: `CommandExists` (§4.5) — a pure search-path
probe, no process launch, never an error; no `Debug` calls. -/
def commandExists (searchPath : List String) (name : String) : Bool × Nat :=
  (searchPath.contains name, 0)

/-! ## Asynchronous completion handle -/

/-- Modelled from the spec: the async process handle's completion state
(§5).  `buffered` is the content of the buffered capacity-1 completion
channel; `stored` is the result cached once delivery has been
consumed. -/
structure AsyncHandle where
  buffered : Option RunResult
  stored : Option RunResult
deriving DecidableEq, Repr

/-- A freshly-started handle: channel empty, nothing stored yet. -/
def freshHandle : AsyncHandle := ⟨none, none⟩

/-- Modelled from the spec: `RunComplexCommandAsync` (§6) returns
immediately after the process is confirmed started, with a fresh
handle; no `Debug` calls. -/
def runComplexCommandAsyncOp (_cmd : Command) : AsyncHandle × Nat :=
  (freshHandle, 0)

/-- Modelled from the spec: the completion task sends the terminal
result into the capacity-1 channel.  The Boolean says whether the send
would block (it blocks only when the buffer is already full, which the
single delivery never encounters). -/
def deliver (h : AsyncHandle) (r : RunResult) : Bool × AsyncHandle :=
  match h.buffered with
  | some _ => (true, h)
  | none => (false, ⟨some r, h.stored⟩)

/-- Modelled from the spec: `Wait` on the handle.  After delivery the
first read consumes the channel and caches the result; later reads
return the same cached result instead of blocking.  `none` means the
call would block (nothing delivered yet). -/
def waitOnHandle (h : AsyncHandle) : Option (RunResult × AsyncHandle) :=
  match h.stored with
  | some r => some (r, h)
  | none =>
    match h.buffered with
    | some r => some (r, ⟨none, some r⟩)
    | none => none

/-! ## The SOCKS5 dial helper (`src/httpclient/socksify.go`) -/

/-- The dialer `SOCKS5DialFuncFromEnvironment` returns: the caller's
original dialer, the SSH-tunnelled SOCKS5 dialer, the proxy built by
`goproxy.FromURL`, or the `no_proxy`-aware per-host wrapper. -/
inductive Dialer where
  | original
  | sshProxy
  | proxyFromURL
  | perHost
deriving DecidableEq, Repr

/-- The environment and fallible collaborators `socksify.go` consults:
`BOSH_ALL_PROXY`, `no_proxy`, `ioutil.ReadFile`, the SSH SOCKS5 proxy
dialer constructor, `url.Parse`, and `goproxy.FromURL` (each `none`
models that step failing with an error). -/
structure ProxyWorld where
  allProxy : String
  noProxy : String
  readFile : String → Option String
  sshDialer : String → String → Option Unit
  parseURL : String → Option Unit
  fromURL : Option Unit

/-- `strings.TrimPrefix(allProxy, "ssh+socks5://")` from the source. -/
def sshTrimmed (allProxy : String) : String :=
  dropPre allProxy "ssh+socks5://"

/-- `strings.Split(allProxy, "?")[0]` from the source (after the
trim). -/
def sshBaseURL (allProxy : String) : String :=
  (strSplitOn (sshTrimmed allProxy) "?").headD ""

/-- `strings.Split(allProxy, "=")[1]` from the source (after the
trim). -/
def sshKeyPath (allProxy : String) : String :=
  ((strSplitOn (sshTrimmed allProxy) "=").drop 1).headD ""

/-- The guard of the source's ssh branch:
`strings.HasPrefix(allProxy, "ssh+") && strings.Contains(allProxy,
"?private-key=")`. -/
def sshBranch (allProxy : String) : Bool :=
  strStartsWith allProxy "ssh+" && strContains allProxy "?private-key="

/-- `SOCKS5DialFuncFromEnvironment` from `src/httpclient/socksify.go`,
step for step: empty `BOSH_ALL_PROXY` returns the original dialer; in
the ssh branch a failed key read or dialer construction returns the
original dialer; otherwise a failed URL parse or proxy construction
returns the original dialer; on success the choice between the plain
proxy and the per-host wrapper follows `no_proxy`. -/
def socks5DialFuncFromEnvironment (w : ProxyWorld) : Dialer :=
  if w.allProxy.length = 0 then .original
  else if sshBranch w.allProxy then
    match w.readFile (sshKeyPath w.allProxy) with
    | none => .original
    | some key =>
      match w.sshDialer key (sshBaseURL w.allProxy) with
      | none => .original
      | some _ => .sshProxy
  else
    match w.parseURL w.allProxy with
    | none => .original
    | some _ =>
      match w.fromURL with
      | none => .original
      | some _ => if w.noProxy.length = 0 then .proxyFromURL else .perHost

/-- An empty proxy environment: `BOSH_ALL_PROXY` unset and every
collaborator failing. -/
def emptyProxyWorld : ProxyWorld :=
  ⟨"", "", fun _ => none, fun _ _ => none, fun _ => none, none⟩

/-- A proxy environment whose `BOSH_ALL_PROXY` takes the ssh branch but
whose private-key file cannot be read. -/
def sshFailWorld : ProxyWorld :=
  ⟨"ssh+socks5://localhost:12345?private-key=/no/file/here", "",
    fun _ => none, fun _ _ => none, fun _ => some (), some ()⟩

/-! ## Helper lemmas -/

theorem strAppendAssoc (a b c : String) : a ++ b ++ c = a ++ (b ++ c) := by
  cases a; cases b; cases c
  show String.mk _ = String.mk _
  rw [List.append_assoc]

theorem str_empty_mid (x y : String) : x ++ "" ++ y = x ++ y := by
  rw [strAppendAssoc]
  rfl

theorem str_merge_stream_literals (x : String) :
    x ++ "', stdout: '" ++ "', stderr: '" ++ "': " =
      x ++ "', stdout: '', stderr: '': " := by
  rw [strAppendAssoc, strAppendAssoc]
  congr 1

theorem reportResult_stdout (name : String) (args : List String)
    (so se : String) (code : Nat) :
    (reportResult name args so se code).stdout = so := by
  unfold reportResult
  split <;> rfl

theorem reportResult_stderr (name : String) (args : List String)
    (so se : String) (code : Nat) :
    (reportResult name args so se code).stderr = se := by
  unfold reportResult
  split <;> rfl

theorem reportResult_exitStatus (name : String) (args : List String)
    (so se : String) (code : Nat) :
    (reportResult name args so se code).exitStatus = code := by
  unfold reportResult
  split
  · next hc => exact hc.symm
  · rfl

theorem reportResult_err_none_iff (name : String) (args : List String)
    (so se : String) (code : Nat) :
    (reportResult name args so se code).err = none ↔ code = 0 := by
  unfold reportResult
  split
  · next hc => simp [hc]
  · next hc => simp [hc]

theorem lookup_mem {l : List (String × String)} {k v : String}
    (h : l.lookup k = some v) : (k, v) ∈ l := by
  induction l with
  | nil => simp [List.lookup] at h
  | cons p t ih =>
    cases p with
    | mk a b =>
      simp only [List.lookup] at h
      cases hk : (k == a) with
      | true =>
        rw [hk] at h
        have hab : k = a := eq_of_beq hk
        have hv : b = v := Option.some.inj h
        subst hab
        subst hv
        exact List.mem_cons_self _ _
      | false =>
        rw [hk] at h
        exact List.mem_cons_of_mem _ (ih h)

/-! ## Claim theorems -/

/-- C3: for every spec with `UseIsolatedEnv = true` executed on a
platform that supports isolation, the environment the launched process
observes equals exactly the spec's `Env` mapping — every entry of `Env`
is present and no ambient variable is present. -/
theorem isolated_env_observed_is_spec_env (plat : Platform)
    (ambient : List (String × String)) (cmd : Command) (proc : ProcOutput)
    (out : RunOutcome) (hsup : plat.supportsIsolatedEnv = true)
    (hiso : cmd.useIsolatedEnv = true)
    (h : runComplexCommand plat ambient cmd proc = some out) :
    out.mergedEnv = cmd.env := by
  simp only [runComplexCommand, mergeEnv, hiso, hsup, if_true] at h
  have h2 := Option.some.inj h
  subst h2
  rfl

theorem isolated_env_observed_is_spec_env_witness :
    unixPlatform.supportsIsolatedEnv = true ∧
    (⟨"env", [], none, [("FOO", "BAR")], true, none, false, false⟩ :
        Command).useIsolatedEnv = true ∧
    runComplexCommand unixPlatform [("PATH", "/usr/bin")]
        ⟨"env", [], none, [("FOO", "BAR")], true, none, false, false⟩
        ⟨"FOO=BAR\n", "", 0⟩ =
      some ⟨⟨"FOO=BAR\n", "", 0, none⟩, "", "", [("FOO", "BAR")]⟩ ∧
    (⟨⟨"FOO=BAR\n", "", 0, none⟩, "", "", [("FOO", "BAR")]⟩ :
        RunOutcome).mergedEnv = [("FOO", "BAR")] :=
  ⟨rfl, rfl, by decide,
    isolated_env_observed_is_spec_env unixPlatform [("PATH", "/usr/bin")]
      ⟨"env", [], none, [("FOO", "BAR")], true, none, false, false⟩
      ⟨"FOO=BAR\n", "", 0⟩
      ⟨⟨"FOO=BAR\n", "", 0, none⟩, "", "", [("FOO", "BAR")]⟩
      rfl rfl (by decide)⟩

/-- C4: on a platform that cannot express environment isolation
(Windows), any spec with `UseIsolatedEnv = true` is an unrecoverable
programmer error: the merge panics and the run produces no normal
result at all — in particular it never falls back to a non-isolated
environment. -/
theorem unsupported_isolation_panics (plat : Platform)
    (ambient : List (String × String)) (cmd : Command) (proc : ProcOutput)
    (hsup : plat.supportsIsolatedEnv = false)
    (hiso : cmd.useIsolatedEnv = true) :
    mergeEnv plat ambient cmd.env cmd.useIsolatedEnv =
      MergeResult.panicked ∧
    runComplexCommand plat ambient cmd proc = none := by
  constructor
  · simp [mergeEnv, hiso, hsup]
  · simp [runComplexCommand, mergeEnv, hiso, hsup]

theorem unsupported_isolation_panics_witness :
    windowsPlatform.supportsIsolatedEnv = false ∧
    (⟨"cmd.exe", ["/C", "SET"], none, [("FOO", "BAR")], true, none,
        false, false⟩ : Command).useIsolatedEnv = true ∧
    mergeEnv windowsPlatform [("PATH", "C:")] [("FOO", "BAR")] true =
      MergeResult.panicked ∧
    runComplexCommand windowsPlatform [("PATH", "C:")]
      ⟨"cmd.exe", ["/C", "SET"], none, [("FOO", "BAR")], true, none,
        false, false⟩ ⟨"", "", 0⟩ = none :=
  ⟨rfl, rfl,
    (unsupported_isolation_panics windowsPlatform [("PATH", "C:")]
      ⟨"cmd.exe", ["/C", "SET"], none, [("FOO", "BAR")], true, none,
        false, false⟩ ⟨"", "", 0⟩ rfl rfl).1,
    (unsupported_isolation_panics windowsPlatform [("PATH", "C:")]
      ⟨"cmd.exe", ["/C", "SET"], none, [("FOO", "BAR")], true, none,
        false, false⟩ ⟨"", "", 0⟩ rfl rfl).2⟩

/-- C5: for every invocation whose process runs to completion, the
native exit code is surfaced unchanged as `ExitStatus`, and the error is
nil exactly when the code is 0 — so exit 14 gives status 14 with a
non-nil error, and exit 0 gives status 0 with a nil error. -/
theorem exit_status_mapping (plat : Platform)
    (ambient : List (String × String)) (cmd : Command) (proc : ProcOutput)
    (out : RunOutcome)
    (h : runComplexCommand plat ambient cmd proc = some out) :
    out.result.exitStatus = proc.exitCode ∧
    (out.result.err = none ↔ proc.exitCode = 0) := by
  unfold runComplexCommand at h
  cases hm : mergeEnv plat ambient cmd.env cmd.useIsolatedEnv with
  | panicked =>
    rw [hm] at h
    exact Option.noConfusion h
  | ok resolved =>
    rw [hm] at h
    have h2 := Option.some.inj h
    subst h2
    exact ⟨reportResult_exitStatus _ _ _ _ _,
      reportResult_err_none_iff _ _ _ _ _⟩

theorem exit_status_mapping_witness :
    runComplexCommand unixPlatform [] (simpleCommand "bash" ["-c", "exit 14"])
        ⟨"", "", 14⟩ =
      some ⟨⟨"", "", 14,
        some "Running command: 'bash -c exit 14', stdout: '', stderr: '': exit status 14"⟩,
        "", "", []⟩ ∧
    (⟨⟨"", "", 14,
        some "Running command: 'bash -c exit 14', stdout: '', stderr: '': exit status 14"⟩,
        "", "", []⟩ : RunOutcome).result.exitStatus = 14 ∧
    ((⟨⟨"", "", 14,
        some "Running command: 'bash -c exit 14', stdout: '', stderr: '': exit status 14"⟩,
        "", "", []⟩ : RunOutcome).result.err = none ↔ (14 : Nat) = 0) :=
  ⟨by decide,
    (exit_status_mapping unixPlatform [] (simpleCommand "bash" ["-c", "exit 14"])
      ⟨"", "", 14⟩ _ (by decide)).1,
    (exit_status_mapping unixPlatform [] (simpleCommand "bash" ["-c", "exit 14"])
      ⟨"", "", 14⟩ _ (by decide)).2⟩

/-- C2: running a program that fails with a non-zero exit, given
arguments and producing no output, yields an error message of exactly
the shape `Running command: '<program> <args>', stdout: '', stderr: '':
<native failure>` and an `ExitStatus` equal to the native exit code. -/
theorem failing_command_error_message_shape (plat : Platform)
    (ambient : List (String × String)) (name : String) (args : List String)
    (c : Nat) (out : RunOutcome) (hc : ¬c = 0)
    (h : (runCommand plat ambient name args ⟨"", "", c⟩).1 = some out) :
    out.result.err =
      some ("Running command: '" ++ commandLine name args
        ++ "', stdout: '', stderr: '': " ++ exitDescription c) ∧
    out.result.exitStatus = c := by
  unfold runCommand runComplexCommand at h
  cases hm : mergeEnv plat ambient (simpleCommand name args).env
      (simpleCommand name args).useIsolatedEnv with
  | panicked =>
    rw [hm] at h
    exact Option.noConfusion h
  | ok resolved =>
    rw [hm] at h
    have h2 := Option.some.inj h
    subst h2
    refine ⟨?_, reportResult_exitStatus _ _ _ _ _⟩
    show (reportResult name args "" "" c).err = _
    unfold reportResult
    rw [if_neg hc]
    show some _ = some _
    rw [str_empty_mid, str_empty_mid, str_merge_stream_literals]

theorem failing_command_error_message_shape_witness :
    ¬(1 : Nat) = 0 ∧
    (runCommand unixPlatform [("PATH", "/bin")] "false-exe" ["second arg"]
        ⟨"", "", 1⟩).1 =
      some ⟨⟨"", "", 1,
        some "Running command: 'false-exe second arg', stdout: '', stderr: '': exit status 1"⟩,
        "", "", [("PATH", "/bin")]⟩ ∧
    "Running command: 'false-exe second arg', stdout: '', stderr: '': exit status 1" =
      "Running command: '" ++ commandLine "false-exe" ["second arg"]
        ++ "', stdout: '', stderr: '': " ++ exitDescription 1 := by
  refine ⟨by decide, by decide, ?_⟩
  exact Option.some.inj
    (failing_command_error_message_shape unixPlatform [("PATH", "/bin")]
      "false-exe" ["second arg"] 1
      ⟨⟨"", "", 1,
        some "Running command: 'false-exe second arg', stdout: '', stderr: '': exit status 1"⟩,
        "", "", [("PATH", "/bin")]⟩ (by decide) (by decide)).1

/-- C7: for a process started with `RunComplexCommandAsync`, delivering
the terminal result through the capacity-1 buffered completion channel
never blocks the completion task, and a second `Wait` on the completed
handle returns the identical result again without blocking. -/
theorem async_result_single_delivery (cmd : Command) (r : RunResult) :
    (deliver (runComplexCommandAsyncOp cmd).1 r).1 = false ∧
    waitOnHandle (deliver (runComplexCommandAsyncOp cmd).1 r).2 =
      some (r, ⟨none, some r⟩) ∧
    waitOnHandle (⟨none, some r⟩ : AsyncHandle) = some (r, ⟨none, some r⟩) :=
  ⟨rfl, rfl, rfl⟩

/-- C8: with a caller-supplied sink the full stream goes to the sink and
the synchronous result field stays empty; without one the internal
buffer captures the full stream into the result. -/
theorem stream_sink_binding (plat : Platform)
    (ambient : List (String × String)) (cmd : Command) (proc : ProcOutput)
    (out : RunOutcome)
    (h : runComplexCommand plat ambient cmd proc = some out) :
    (cmd.hasStdoutSink = true →
      out.stdoutSinkBytes = proc.stdout ∧ out.result.stdout = "") ∧
    (cmd.hasStderrSink = true →
      out.stderrSinkBytes = proc.stderr ∧ out.result.stderr = "") ∧
    (cmd.hasStdoutSink = false →
      out.stdoutSinkBytes = "" ∧ out.result.stdout = proc.stdout) ∧
    (cmd.hasStderrSink = false →
      out.stderrSinkBytes = "" ∧ out.result.stderr = proc.stderr) := by
  unfold runComplexCommand at h
  cases hm : mergeEnv plat ambient cmd.env cmd.useIsolatedEnv with
  | panicked =>
    rw [hm] at h
    exact Option.noConfusion h
  | ok resolved =>
    rw [hm] at h
    have h2 := Option.some.inj h
    subst h2
    refine ⟨fun hs => ?_, fun hs => ?_, fun hs => ?_, fun hs => ?_⟩ <;>
      simp [hs, bindOutput, reportResult_stdout, reportResult_stderr]

theorem stream_sink_binding_witness :
    runComplexCommand unixPlatform []
        ⟨"cat-exe", [], none, [], false, none, true, true⟩
        ⟨"fake-out", "fake-err", 0⟩ =
      some ⟨⟨"", "", 0, none⟩, "fake-out", "fake-err", []⟩ ∧
    (⟨"cat-exe", [], none, [], false, none, true, true⟩ :
        Command).hasStdoutSink = true ∧
    ((⟨⟨"", "", 0, none⟩, "fake-out", "fake-err", []⟩ :
        RunOutcome).stdoutSinkBytes = "fake-out" ∧
      (⟨⟨"", "", 0, none⟩, "fake-out", "fake-err", []⟩ :
        RunOutcome).result.stdout = "") ∧
    ((⟨⟨"", "", 0, none⟩, "fake-out", "fake-err", []⟩ :
        RunOutcome).stderrSinkBytes = "fake-err" ∧
      (⟨⟨"", "", 0, none⟩, "fake-out", "fake-err", []⟩ :
        RunOutcome).result.stderr = "") :=
  ⟨by decide, rfl,
    (stream_sink_binding unixPlatform []
      ⟨"cat-exe", [], none, [], false, none, true, true⟩
      ⟨"fake-out", "fake-err", 0⟩ _ (by decide)).1 rfl,
    (stream_sink_binding unixPlatform []
      ⟨"cat-exe", [], none, [], false, none, true, true⟩
      ⟨"fake-out", "fake-err", 0⟩ _ (by decide)).2.1 rfl⟩

/-- C9: `RunCommandQuietly` has execution semantics identical to
`RunCommand` and makes exactly 2 `Debug` calls on the injected logger,
while every other engine operation makes none. -/
theorem quiet_logging_and_semantics (plat : Platform)
    (ambient : List (String × String)) (name : String) (args : List String)
    (input : String) (cmd : Command) (proc : ProcOutput)
    (searchPath : List String) :
    (runCommandQuietly plat ambient name args proc).1 =
      (runCommand plat ambient name args proc).1 ∧
    (runCommandQuietly plat ambient name args proc).2 = 2 ∧
    (runCommand plat ambient name args proc).2 = 0 ∧
    (runCommandWithInput plat ambient input name args proc).2 = 0 ∧
    (runComplexCommandOp plat ambient cmd proc).2 = 0 ∧
    (runComplexCommandAsyncOp cmd).2 = 0 ∧
    (commandExists searchPath name).2 = 0 :=
  ⟨rfl, rfl, rfl, rfl, rfl, rfl, rfl⟩

/-- The spec's case-insensitive duplicate-key example `Env`. -/
def exampleEnvCI : List (String × String) :=
  [("_foo", "BAZZZ"), ("_bar", "alpha=second"), ("_BAR", "alpha=first")]

/-- C1 counterexample: resolving the `_bar`/`_BAR` tie by sorting the
conflicting keys lexicographically and taking the LAST one after
sorting — the claim's literal tie-break — keeps `_bar=alpha=second` and
drops `_BAR`, contradicting the claim's own stated outcome
(`_BAR=alpha=first`, no key `_bar`). -/
theorem ci_tiebreak_last_contradicts_expected :
    mergeCaseInsensitiveLast [("_FOO", "BAR"), ("PATH", "C:")] exampleEnvCI =
      [("_bar", "alpha=second"), ("_foo", "BAZZZ"), ("PATH", "C:")] ∧
    (mergeCaseInsensitiveLast [("_FOO", "BAR"), ("PATH", "C:")]
      exampleEnvCI).lookup "_BAR" = none ∧
    (mergeCaseInsensitiveLast [("_FOO", "BAR"), ("PATH", "C:")]
      exampleEnvCI).lookup "_bar" = some "alpha=second" := by
  refine ⟨by decide, by decide, by decide⟩

theorem mergeCI_mem_de (ambient env : List (String × String))
    (p : String × String) (hp : p ∈ dedupeEnvCI env) :
    p ∈ mergeCaseInsensitive ambient env := by
  show p ∈ dedupeEnvCI env ++ _
  exact List.mem_append_left _ hp

theorem mergeCI_no_key (ambient env : List (String × String)) (k : String)
    (hde : ∀ p ∈ dedupeEnvCI env, p.1 ≠ k)
    (hany : (dedupeEnvCI env).any (fun q => upKey q.1 == upKey k) = true) :
    ∀ p ∈ mergeCaseInsensitive ambient env, p.1 ≠ k := by
  intro p hp
  rcases List.mem_append.1 hp with h1 | h2
  · exact hde p h1
  · obtain ⟨k1, v1⟩ := p
    intro heq
    have heq2 : k1 = k := heq
    subst heq2
    have hpred := (List.mem_filter.1 h2).2
    dsimp only at hpred
    rw [hany] at hpred
    simp at hpred

/-- C1 (amended): on case-insensitive platforms, ties within `Env`
(keys that differ only by case) are resolved by sorting the conflicting
keys lexicographically and taking the FIRST one after sorting; merging
the example `Env` with any ambient environment containing `_FOO=BAR`
yields a result containing `_foo=BAZZZ` (no key `_FOO`) and
`_BAR=alpha=first` (no key `_bar`). -/
theorem ci_merge_sorted_first_key_wins (ambient : List (String × String))
    (_h : ambient.lookup "_FOO" = some "BAR") :
    mergeEnv windowsPlatform ambient exampleEnvCI false =
      MergeResult.ok (mergeCaseInsensitive ambient exampleEnvCI) ∧
    ("_foo", "BAZZZ") ∈ mergeCaseInsensitive ambient exampleEnvCI ∧
    (∀ p ∈ mergeCaseInsensitive ambient exampleEnvCI, p.1 ≠ "_FOO") ∧
    ("_BAR", "alpha=first") ∈ mergeCaseInsensitive ambient exampleEnvCI ∧
    (∀ p ∈ mergeCaseInsensitive ambient exampleEnvCI, p.1 ≠ "_bar") := by
  refine ⟨rfl, ?_, ?_, ?_, ?_⟩
  · exact mergeCI_mem_de _ _ _ (by decide)
  · exact mergeCI_no_key ambient exampleEnvCI "_FOO" (by decide) (by decide)
  · exact mergeCI_mem_de _ _ _ (by decide)
  · exact mergeCI_no_key ambient exampleEnvCI "_bar" (by decide) (by decide)

theorem ci_merge_sorted_first_key_wins_witness :
    ([("_FOO", "BAR"), ("PATH", "C:")] :
        List (String × String)).lookup "_FOO" = some "BAR" ∧
    (mergeEnv windowsPlatform [("_FOO", "BAR"), ("PATH", "C:")]
        exampleEnvCI false =
      MergeResult.ok (mergeCaseInsensitive [("_FOO", "BAR"), ("PATH", "C:")]
        exampleEnvCI) ∧
    ("_foo", "BAZZZ") ∈
      mergeCaseInsensitive [("_FOO", "BAR"), ("PATH", "C:")] exampleEnvCI ∧
    (∀ p ∈ mergeCaseInsensitive [("_FOO", "BAR"), ("PATH", "C:")]
      exampleEnvCI, p.1 ≠ "_FOO") ∧
    ("_BAR", "alpha=first") ∈
      mergeCaseInsensitive [("_FOO", "BAR"), ("PATH", "C:")] exampleEnvCI ∧
    (∀ p ∈ mergeCaseInsensitive [("_FOO", "BAR"), ("PATH", "C:")]
      exampleEnvCI, p.1 ≠ "_bar")) :=
  ⟨by decide,
    ci_merge_sorted_first_key_wins [("_FOO", "BAR"), ("PATH", "C:")]
      (by decide)⟩

/-- The spec's case-sensitive coexisting-keys example `Env`. -/
def exampleEnvCS : List (String × String) :=
  [("_foo", "BAZZZ"), ("ABC", "XYZ"), ("abc", "xyz")]

theorem env_entry_mem_mergeCS (ambient env : List (String × String))
    (k v : String) (he : env.lookup k = some v) :
    (k, v) ∈ mergeCaseSensitive ambient env := by
  unfold mergeCaseSensitive
  cases hl : ambient.lookup k with
  | none =>
    apply List.mem_append_right
    apply List.mem_filter.2
    refine ⟨lookup_mem he, ?_⟩
    dsimp only
    rw [hl]
    rfl
  | some w =>
    apply List.mem_append_left
    have hmem := lookup_mem hl
    have hf : (fun p : String × String =>
        match env.lookup p.1 with
        | some v => (p.1, v)
        | none => p) (k, w) = (k, v) := by
      dsimp only
      rw [he]
    rw [← hf]
    exact List.mem_map_of_mem _ hmem

theorem ambient_entry_mem_mergeCS (ambient env : List (String × String))
    (k v : String) (ha : ambient.lookup k = some v)
    (he : env.lookup k = none) :
    (k, v) ∈ mergeCaseSensitive ambient env := by
  unfold mergeCaseSensitive
  apply List.mem_append_left
  have hmem := lookup_mem ha
  have hf : (fun p : String × String =>
      match env.lookup p.1 with
      | some v => (p.1, v)
      | none => p) (k, v) = (k, v) := by
    dsimp only
    rw [he]
  rw [← hf]
  exact List.mem_map_of_mem _ hmem

/-- C6: on case-sensitive platforms key matching is exact-case, so
merging the example `Env` with an ambient environment containing
`_FOO=BAR` yields a result containing both `_FOO=BAR` and `_foo=BAZZZ`,
and both `ABC=XYZ` and `abc=xyz` — keys differing only by case
coexist. -/
theorem case_sensitive_merge_coexisting_keys (plat : Platform)
    (ambient : List (String × String)) (hcs : plat.caseSensitiveEnv = true)
    (h : ambient.lookup "_FOO" = some "BAR") :
    mergeEnv plat ambient exampleEnvCS false =
      MergeResult.ok (mergeCaseSensitive ambient exampleEnvCS) ∧
    ("_FOO", "BAR") ∈ mergeCaseSensitive ambient exampleEnvCS ∧
    ("_foo", "BAZZZ") ∈ mergeCaseSensitive ambient exampleEnvCS ∧
    ("ABC", "XYZ") ∈ mergeCaseSensitive ambient exampleEnvCS ∧
    ("abc", "xyz") ∈ mergeCaseSensitive ambient exampleEnvCS := by
  refine ⟨?_, ?_, ?_, ?_, ?_⟩
  · simp [mergeEnv, hcs]
  · exact ambient_entry_mem_mergeCS ambient exampleEnvCS "_FOO" "BAR" h
      (by decide)
  · exact env_entry_mem_mergeCS ambient exampleEnvCS "_foo" "BAZZZ" (by decide)
  · exact env_entry_mem_mergeCS ambient exampleEnvCS "ABC" "XYZ" (by decide)
  · exact env_entry_mem_mergeCS ambient exampleEnvCS "abc" "xyz" (by decide)

theorem case_sensitive_merge_coexisting_keys_witness :
    unixPlatform.caseSensitiveEnv = true ∧
    ([("_FOO", "BAR")] : List (String × String)).lookup "_FOO" = some "BAR" ∧
    (mergeEnv unixPlatform [("_FOO", "BAR")] exampleEnvCS false =
      MergeResult.ok (mergeCaseSensitive [("_FOO", "BAR")] exampleEnvCS) ∧
    ("_FOO", "BAR") ∈ mergeCaseSensitive [("_FOO", "BAR")] exampleEnvCS ∧
    ("_foo", "BAZZZ") ∈ mergeCaseSensitive [("_FOO", "BAR")] exampleEnvCS ∧
    ("ABC", "XYZ") ∈ mergeCaseSensitive [("_FOO", "BAR")] exampleEnvCS ∧
    ("abc", "xyz") ∈ mergeCaseSensitive [("_FOO", "BAR")] exampleEnvCS) :=
  ⟨rfl, by decide,
    case_sensitive_merge_coexisting_keys unixPlatform [("_FOO", "BAR")]
      rfl (by decide)⟩

/-- C10: `SOCKS5DialFuncFromEnvironment` never surfaces an error: with
`BOSH_ALL_PROXY` empty it returns the original dialer unchanged, and on
every failure along the proxy-construction path (private-key file
unreadable, SSH proxy dialer construction failing, proxy URL unparsable,
or building a proxy from the URL failing) it silently falls back to the
original dialer. -/
theorem socksify_falls_back_to_original_dialer (w : ProxyWorld) :
    (w.allProxy = "" → socks5DialFuncFromEnvironment w = Dialer.original) ∧
    (sshBranch w.allProxy = true →
      w.readFile (sshKeyPath w.allProxy) = none →
      socks5DialFuncFromEnvironment w = Dialer.original) ∧
    (∀ key, sshBranch w.allProxy = true →
      w.readFile (sshKeyPath w.allProxy) = some key →
      w.sshDialer key (sshBaseURL w.allProxy) = none →
      socks5DialFuncFromEnvironment w = Dialer.original) ∧
    (sshBranch w.allProxy = false → w.parseURL w.allProxy = none →
      socks5DialFuncFromEnvironment w = Dialer.original) ∧
    (sshBranch w.allProxy = false → w.parseURL w.allProxy = some () →
      w.fromURL = none →
      socks5DialFuncFromEnvironment w = Dialer.original) := by
  refine ⟨?_, ?_, ?_, ?_, ?_⟩
  · intro he
    have h0 : w.allProxy.length = 0 := by
      rw [he]
      decide
    simp [socks5DialFuncFromEnvironment, h0]
  · intro hb hr
    by_cases h0 : w.allProxy.length = 0 <;>
      simp [socks5DialFuncFromEnvironment, h0, hb, hr]
  · intro key hb hr hd
    by_cases h0 : w.allProxy.length = 0 <;>
      simp [socks5DialFuncFromEnvironment, h0, hb, hr, hd]
  · intro hb hp
    by_cases h0 : w.allProxy.length = 0 <;>
      simp [socks5DialFuncFromEnvironment, h0, hb, hp]
  · intro hb hp hf
    by_cases h0 : w.allProxy.length = 0 <;>
      simp [socks5DialFuncFromEnvironment, h0, hb, hp, hf]

theorem socksify_falls_back_to_original_dialer_witness :
    emptyProxyWorld.allProxy = "" ∧
    socks5DialFuncFromEnvironment emptyProxyWorld = Dialer.original ∧
    sshBranch sshFailWorld.allProxy = true ∧
    sshFailWorld.readFile (sshKeyPath sshFailWorld.allProxy) = none ∧
    socks5DialFuncFromEnvironment sshFailWorld = Dialer.original :=
  ⟨rfl,
    (socksify_falls_back_to_original_dialer emptyProxyWorld).1 rfl,
    by decide, rfl,
    (socksify_falls_back_to_original_dialer sshFailWorld).2.1 (by decide) rfl⟩
